import Mathlib

/-!
Shallow embedding of `bps_torch/bps.py` (the Basis Point Set encoder).

Coordinates are modelled exactly over `ℤ` (a subring of the ideal real
values the floating-point code approximates); a point is a list of coordinates,
a point cloud a list of points, and a batch a list of clouds.  The stored
basis of a `bps_torch` object is kept in its `[1, P, D]` form, i.e. as a
one-element batch.  Error values distinguish configuration errors
(`ValueError` raised by the library itself) from failures of the external
nearest-neighbor / surface-distance oracles.
-/

abbrev Point := List ℤ

abbrev Cloud := List Point

/-- Squared Euclidean distance between two points (exact integer arithmetic). -/
def sqdist (p q : Point) : ℤ :=
  (List.zipWith (fun a b => (a - b) * (a - b)) p q).sum

/-- Index of the minimal element scan: `argminAux vs i best bv` walks the
remaining values `vs` (the value at position `i` comes first), keeping the
index `best` of the smallest value `bv` seen so far, ties to the first. -/
def argminAux : List ℤ → ℕ → ℕ → ℤ → ℕ
  | [], _, best, _ => best
  | v :: vs, i, best, bv =>
    if v < bv then argminAux vs (i + 1) i v else argminAux vs (i + 1) best bv

/-- Index (into `ref`) of the nearest point of `ref` to the query point `q`. -/
def nnIdx (ref : Cloud) (q : Point) : ℕ :=
  match ref.map (sqdist q) with
  | [] => 0
  | v :: vs => argminAux vs 1 0 v

/-- Error taxonomy of the library: configuration errors are the `ValueError`s
raised by `bps.py` itself, oracle errors are failures of the external
nearest-neighbor / surface oracles (spec section 7). -/
inductive BpsErr
  | config (msg : String)
  | oracle (msg : String)
deriving DecidableEq

/-- Values stored in a feature bundle.  `rsqrt a` represents the elementwise
square root of the (nonnegative) entries of `a`: the source stores
`sqrt(sum of squares)`, and since the square root is injective on the
nonnegative rationals the radicands are kept exactly. -/
inductive FeatVal
  | rsqrt (a : List (List ℤ))
  | arr3 (a : List Cloud)
  | idx2 (a : List (List ℕ))
  | idx3 (a : List (List (List ℕ)))
deriving DecidableEq

abbrev Bundle := List (String × FeatVal)

instance exceptDecEq {ε α : Type} [DecidableEq ε] [DecidableEq α] :
    DecidableEq (Except ε α)
  | .error a, .error b =>
    if h : a = b then .isTrue (by rw [h])
    else .isFalse (by intro hh; cases hh; exact h rfl)
  | .error _, .ok _ => .isFalse (by intro h; cases h)
  | .ok _, .error _ => .isFalse (by intro h; cases h)
  | .ok a, .ok b =>
    if h : a = b then .isTrue (by rw [h])
    else .isFalse (by intro hh; cases hh; exact h rfl)

/-- Input to `enc_points` / `decode`: either a single `[P, D]` cloud or a
batched `[N, P, D]` array (`x.ndim > 2` in the source). -/
inductive PcInput
  | unbatched (c : Cloud)
  | batched (b : List Cloud)

/-- Promotion of unbatched input: `if not is_batch: x = x.unsqueeze(0)`. -/
def promote : PcInput → List Cloud
  | .unbatched c => [c]
  | .batched b => b

/-- Modelled from the spec: the external nearest-neighbor oracle
(`chamfer_distance`, spec section 6).  Given query batch `Y` and reference
batch `X` it returns, per batch item, the index of the nearest `X`-point for
every `Y`-point and symmetrically; it is defined only for matching batch
sizes and nonempty clouds, and fails otherwise. -/
def chdOracle (Y X : List Cloud) :
    Except BpsErr (List (List ℕ) × List (List ℕ)) :=
  if Y.length = X.length ∧ (∀ c ∈ X, c ≠ []) ∧ (∀ c ∈ Y, c ≠ []) then
    Except.ok (List.zipWith (fun yc xc => yc.map (nnIdx xc)) Y X,
               List.zipWith (fun yc xc => xc.map (nnIdx yc)) Y X)
  else Except.error (BpsErr.oracle "chamfer distance batch or shape mismatch")

/-- Sequential effectful map: the Python `for fid in range(N)` loop, which
propagates the first raised exception. -/
def exceptMap {α β ε : Type} (f : α → Except ε β) : List α → Except ε (List β)
  | [] => Except.ok []
  | a :: rest =>
    match f a with
    | .error e => Except.error e
    | .ok b =>
      match exceptMap f rest with
      | .error e => Except.error e
      | .ok bs => Except.ok (b :: bs)

/-- One iteration of the per-batch-item loop of `enc_points`
(bps.py lines 114-122): pick `Y = bps[fid:fid+1]` when the basis batch
equals `N`, else the whole basis; query the oracle; record the nearest
indices and `deltas[fid] = X[:, b2x_idx] - Y`. -/
def enc_item (bps : List Cloud) (N : ℕ) (xb : List Cloud) (fid : ℕ) :
    Except BpsErr (List ℕ × Cloud) :=
  let Y : List Cloud := if bps.length = N then [bps.getD fid []] else bps
  let X0 : Cloud := xb.getD fid []
  match chdOracle Y [X0] with
  | .error e => Except.error e
  | .ok r =>
    let ids := r.1.headD []
    let Y0 := Y.headD []
    Except.ok (ids,
      List.zipWith (fun i bpt =>
        List.zipWith (fun a b => a - b) (X0.getD i []) bpt) ids Y0)

/-- Last dimension of a batched array, `t.shape[2]` for a `[N, P, D]` array. -/
def dimOf (l : List Cloud) : ℕ := ((l.headD []).headD []).length

/-- Model of `t.gather(1, idx.view(N, P, 1).expand(N, P, K))`:
entry `[n][p]` is the first `K` coordinates of `t[n][idx[n][p]]`
(torch.gather along dim 1 allows `K` at most the last dimension of `t`). -/
def gatherIdx (xb : List Cloud) (idsAll : List (List ℕ)) (K : ℕ) : List Cloud :=
  List.zipWith (fun c row => row.map (fun i => (c.getD i []).take K)) xb idsAll

/-- The `features` branch of `enc_points` (bps.py lines 136-143): inside a
bare `try/except`, read `F = x_features.shape[2]` and gather from `x`; any
failure (absent `x_features`, or a gather shape error because `F` exceeds
the last dimension of `x`) is turned into the same `ValueError`. -/
def featuresPart (xb : List Cloud) (ft : List String) (xf : Option (List Cloud))
    (idsAll : List (List ℕ)) (D : ℕ) : Except BpsErr Bundle :=
  if "features" ∈ ft then
    match xf with
    | none => Except.error (BpsErr.config "No x_features parameter is provided")
    | some xfv =>
      let F := dimOf xfv
      if F ≤ D then
        Except.ok [("features", FeatVal.arr3 (gatherIdx xb idsAll F))]
      else Except.error (BpsErr.config "No x_features parameter is provided")
  else Except.ok []

/-- Assembly of the feature bundle from the loop results
(bps.py lines 124-149), keys in the source insertion order. -/
def buildBundle (xb : List Cloud) (ft : List String) (xf : Option (List Cloud))
    (idsAll : List (List ℕ)) (deltasAll : List Cloud) : Except BpsErr Bundle :=
  let D := dimOf xb
  let b1 : Bundle :=
    if "dists" ∈ ft then
      [("dists", FeatVal.rsqrt (deltasAll.map (fun row =>
        row.map (fun dv => (dv.map (fun a => a * a)).sum))))]
    else []
  let b2 : Bundle :=
    if "deltas" ∈ ft then [("deltas", FeatVal.arr3 deltasAll)] else []
  let b3 : Bundle :=
    if "closest" ∈ ft then
      [("closest", FeatVal.arr3 (gatherIdx xb idsAll D)),
       ("closest_ids", FeatVal.idx3 (idsAll.map (fun row =>
         row.map (fun i => List.replicate D i))))]
    else []
  match featuresPart xb ft xf idsAll D with
  | .error e => Except.error e
  | .ok b4 =>
    let allFeats := b1 ++ b2 ++ b3 ++ b4
    if allFeats.length < 1 then Except.error (BpsErr.config "Invalid cell type")
    else Except.ok (allFeats ++ [("ids", FeatVal.idx2 idsAll)])

/-- `bps_torch.enc_points` (bps.py lines 93-149): promote unbatched input,
resolve the basis (custom basis wins), run the per-item nearest-neighbor
loop, then derive the requested features. -/
def enc_points (bpsStored : List Cloud) (x : PcInput) (ft : List String)
    (xf : Option (List Cloud)) (cb : Option (List Cloud)) : Except BpsErr Bundle :=
  let xb := promote x
  let N := xb.length
  let bps := cb.getD bpsStored
  match exceptMap (enc_item bps N xb) (List.range N) with
  | .error e => Except.error e
  | .ok rows => buildBundle xb ft xf (rows.map Prod.fst) (rows.map Prod.snd)

/-- `bps_torch.decode` (bps.py lines 163-184): promote unbatched deltas,
resolve the basis, `bps.expand(N, P, D) + x` (torch.expand succeeds when the
basis batch is 1 or already `N`, and fails otherwise). -/
def decode (bpsStored : List Cloud) (xd : PcInput) (cb : Option (List Cloud)) :
    Except BpsErr (List Cloud) :=
  let x := promote xd
  let N := x.length
  let bps := cb.getD bpsStored
  if bps.length = 1 then
    Except.ok (x.map (fun c =>
      List.zipWith (fun bp dp => List.zipWith (fun a b => a + b) bp dp)
        (bps.headD []) c))
  else if bps.length = N then
    Except.ok (List.zipWith (fun bc c =>
      List.zipWith (fun bp dp => List.zipWith (fun a b => a + b) bp dp) bc c)
      bps x)
  else Except.error (BpsErr.oracle "expand shape mismatch")

/-- Smallest element of a list (0 on the empty list). -/
def minD : List ℤ → ℤ
  | [] => 0
  | v :: vs => vs.foldl min v

/-- Modelled from the spec: the external point-to-surface oracle
(`point2surface`, spec section 6) returning, per mesh and query point, the
distance to the nearest surface point.  A mesh is represented by a cloud of
surface points; the stored value (here the squared distance radicand) is
irrelevant to every claim, which only concern the bundle structure. -/
def point2surface (meshes : List Cloud) (queries : List Cloud) : List (List ℤ) :=
  List.zipWith (fun m q => q.map (fun pt => minD (m.map (sqdist pt)))) meshes queries

/-- `bps_torch.enc_mesh` (bps.py lines 75-91): scale the basis by 1000,
tile it `N` times, query the surface oracle, and return only the `dists`
feature; the boolean records whether the unsupported-feature warning was
printed (`"dists" not in feature_type`). -/
def enc_mesh (bpsStored : List Cloud) (meshes : List Cloud) (ft : List String)
    (cb : Option (List Cloud)) : Bundle × Bool :=
  let bps := cb.getD bpsStored
  let N := meshes.length
  let scaled := bps.map (fun c => c.map (fun p => p.map (fun a => a * 1000)))
  let tiled := (List.range N).flatMap (fun _ => scaled)
  let dists := point2surface meshes tiled
  ([("dists", FeatVal.rsqrt dists)], !(ft.contains "dists"))

/-- Modelled from the spec: `sample_sphere_uniform` lives in
`bps_torch/tools.py`, which is not among the given sources; only its shape
contract matters to the claims (an `[n_points, n_dims]` array), so the
sampled values are a deterministic seed-dependent placeholder. -/
def sample_sphere_uniform (nPoints nDims : ℕ) (radius : ℤ) (seed : ℕ) : Cloud :=
  (List.range nPoints).map (fun i =>
    List.replicate nDims (radius * ((seed + i : ℕ) : ℤ)))

/-- Modelled from the spec: `sample_sphere_nonuniform` (tools.py, not among
the sources); only the `[n_points, n_dims]` shape contract matters. -/
def sample_sphere_nonuniform (nPoints nDims : ℕ) (radius : ℤ) (seed : ℕ) : Cloud :=
  (List.range nPoints).map (fun i =>
    List.replicate nDims (radius * ((seed + i + i : ℕ) : ℤ)))

/-- Modelled from the spec: `sample_grid_sphere` (tools.py, not among the
sources); only the `[n_points, n_dims]` shape contract matters. -/
def sample_grid_sphere (nPoints nDims : ℕ) (radius : ℤ) (randomize : Bool) : Cloud :=
  (List.range nPoints).map (fun i =>
    List.replicate nDims (radius * ((i : ℕ) : ℤ)))

/-- Nearest grid size, `int(np.round(np.power(n, 1 / d)))` in the source
(bps.py line 58), i.e. the integer nearest to the real d-th root of n.
Characterised exactly in the integers: it is the largest `g ≤ n + 1` with
`(2 g - 1) ^ d ≤ 2 ^ d * n`, which for `d ≥ 1` is the unique `g` with
`g - 1/2 ≤ n ^ (1/d) < g + 1/2` (a tie `n ^ (1/d) = g + 1/2` is impossible,
so rounding half up, half down, or half to even all agree). -/
def gridSize (n d : ℕ) : ℕ :=
  Nat.findGreatest (fun g => (2 * g - 1) ^ d ≤ 2 ^ d * n) (n + 1)

/-- Modelled from the spec: `sample_grid_cube` (tools.py, not among the
sources) per spec section 4.1: a regular axis-aligned grid with `gridSz`
divisions per axis inside `[minv, maxv]^nDims`, hence exactly
`gridSz ^ nDims` points. -/
def sample_grid_cube (gridSz nDims : ℕ) (minv maxv : ℤ) : Cloud :=
  (List.range (gridSz ^ nDims)).map (fun i =>
    (List.range nDims).map (fun k =>
      minv + (maxv - minv) * (((i / gridSz ^ k % gridSz : ℕ)) : ℤ)))

/-- Strategy dispatch of `bps_torch.__init__` (bps.py lines 52-73), applied
to the already-resolved strategy name. -/
def bps_dispatch (bt : String) (nBpsPoints : ℕ) (radius : ℤ) (nDims : ℕ)
    (seed : ℕ) (randomize : Bool) (customBasis : Option Cloud) :
    Except BpsErr (List Cloud) :=
  if bt = "random_uniform" then
    Except.ok [sample_sphere_uniform nBpsPoints nDims radius seed]
  else if bt = "random_nonuniform" then
    Except.ok [sample_sphere_nonuniform nBpsPoints nDims radius seed]
  else if bt = "grid_cube" then
    Except.ok [sample_grid_cube (gridSize nBpsPoints nDims) nDims (-radius) radius]
  else if bt = "grid_sphere" then
    Except.ok [sample_grid_sphere nBpsPoints nDims radius randomize]
  else if bt = "custom" then
    match customBasis with
    | some cbv => Except.ok [cbv]
    | none =>
      Except.error (BpsErr.config
        "Custom BPS arrangement selected but no custom_basis provided")
  else Except.error (BpsErr.config "Invalid basis type")

/-- `bps_torch.__init__` (bps.py lines 36-73): a supplied custom basis
forces `bps_type = custom`; the resulting basis is stored as `[1, P, D]`. -/
def bps_init (bpsType : String) (nBpsPoints : ℕ) (radius : ℤ) (nDims : ℕ)
    (seed : ℕ) (randomize : Bool) (customBasis : Option Cloud) :
    Except BpsErr (List Cloud) :=
  bps_dispatch (if customBasis.isSome then "custom" else bpsType)
    nBpsPoints radius nDims seed randomize customBasis

/-- Row of nearest-input-point indices produced for one batch item when the
resolved basis is the stored `[1, P, D]` basis `[b]`. -/
def idsRow (b X0 : Cloud) : List ℕ := b.map (nnIdx X0)

/-- Row of offsets `x[nearest] - basis_point` produced for one batch item
when the resolved basis is `[b]`. -/
def deltasRow (b X0 : Cloud) : Cloud :=
  List.zipWith (fun i bpt =>
    List.zipWith (fun a b => a - b) (X0.getD i []) bpt) (idsRow b X0) b

/-- All index rows of a batch, basis `[b]`. -/
def idsAllOf (b : Cloud) (xb : List Cloud) : List (List ℕ) :=
  (List.range xb.length).map (fun fid => idsRow b (xb.getD fid []))

/-- All delta rows of a batch, basis `[b]`. -/
def deltasAllOf (b : Cloud) (xb : List Cloud) : List Cloud :=
  (List.range xb.length).map (fun fid => deltasRow b (xb.getD fid []))

lemma exceptMap_ok_of {α β ε : Type} (f : α → Except ε β) (g : α → β) :
    ∀ l : List α, (∀ a ∈ l, f a = .ok (g a)) → exceptMap f l = .ok (l.map g)
  | [], _ => rfl
  | a :: rest, h => by
    have ha := h a (by simp)
    have hrest := exceptMap_ok_of f g rest (fun x hx => h x (by simp [hx]))
    simp only [exceptMap, ha, hrest, List.map_cons]

lemma enc_item_ok (b : Cloud) (xb : List Cloud) (fid : ℕ) (hfid : fid < xb.length)
    (hb : b ≠ []) (hx : ∀ c ∈ xb, c ≠ []) :
    enc_item [b] xb.length xb fid =
      .ok (idsRow b (xb.getD fid []), deltasRow b (xb.getD fid [])) := by
  have hX0 : xb.getD fid [] ≠ [] := by
    rw [List.getD_eq_getElem xb [] hfid]
    exact hx _ (List.getElem_mem hfid)
  have hY : (if ([b] : List Cloud).length = xb.length
      then [([b] : List Cloud).getD fid []] else [b]) = [b] := by
    split
    · next h => 
      have hf0 : fid = 0 := by simp at h; omega
      subst hf0; rfl
    · rfl
  have hcond : (([b] : List Cloud).length = ([xb.getD fid []] : List Cloud).length
      ∧ (∀ c ∈ ([xb.getD fid []] : List Cloud), c ≠ [])
      ∧ (∀ c ∈ ([b] : List Cloud), c ≠ [])) := by
    refine ⟨rfl, ?_, ?_⟩
    · intro c hc
      rw [List.mem_singleton] at hc
      subst hc; exact hX0
    · intro c hc
      rw [List.mem_singleton] at hc
      subst hc; exact hb
  simp only [enc_item, hY, chdOracle, if_pos hcond]
  rfl

lemma exceptMap_enc_item (b : Cloud) (xb : List Cloud)
    (hb : b ≠ []) (hx : ∀ c ∈ xb, c ≠ []) :
    exceptMap (enc_item [b] xb.length xb) (List.range xb.length) =
      .ok ((List.range xb.length).map (fun fid =>
        (idsRow b (xb.getD fid []), deltasRow b (xb.getD fid [])))) :=
  exceptMap_ok_of _ _ _ (fun fid hfid =>
    enc_item_ok b xb fid (List.mem_range.mp hfid) hb hx)

lemma enc_points_eq_build (b : Cloud) (xb : List Cloud) (ft : List String)
    (xf : Option (List Cloud)) (hb : b ≠ []) (hx : ∀ c ∈ xb, c ≠ []) :
    enc_points [b] (.batched xb) ft xf none =
      buildBundle xb ft xf (idsAllOf b xb) (deltasAllOf b xb) := by
  simp only [enc_points, promote, Option.getD_none]
  rw [exceptMap_enc_item b xb hb hx]
  simp only [idsAllOf, deltasAllOf, List.map_map]
  rfl

lemma map_range_getD {α : Type} (g : ℕ → α) (N n : ℕ) (d : α) (hn : n < N) :
    ((List.range N).map g).getD n d = g n := by
  have hlen : n < ((List.range N).map g).length := by simpa using hn
  rw [List.getD_eq_getElem _ d hlen, List.getElem_map]
  simp

lemma zipWith_add_sub (u : Point) : ∀ v : Point, u.length ≤ v.length →
    List.zipWith (fun a b => a + b) v (List.zipWith (fun a b => a - b) u v) = u := by
  induction u with
  | nil => intro v _; simp
  | cons a u ih =>
    intro v h
    cases v with
    | nil => simp at h
    | cons b v =>
      simp only [List.zipWith_cons_cons]
      congr 1
      · omega
      · exact ih v (by simpa using h)

lemma deltasRow_length (b X0 : Cloud) : (deltasRow b X0).length = b.length := by
  simp [deltasRow, idsRow]

/-- C1: encoding a point cloud batch with the `deltas` feature against the
stored `[1, P, D]` basis and decoding the resulting deltas with the same
basis reproduces, for every batch item `n` and basis point `p`, exactly the
matched nearest input point `x[n, ids[n, p]]` (exact arithmetic, hence
within floating-point tolerance). -/
theorem enc_points_decode_roundtrip (b : Cloud) (xb : List Cloud) (D : ℕ)
    (hb : b ≠ []) (hbD : ∀ p ∈ b, p.length = D)
    (hx : ∀ c ∈ xb, c ≠ []) (hxD : ∀ c ∈ xb, ∀ q ∈ c, q.length = D) :
    ∃ bundle deltasAll idsAll dec,
      enc_points [b] (.batched xb) ["deltas"] none none = .ok bundle ∧
      bundle.lookup "deltas" = some (FeatVal.arr3 deltasAll) ∧
      bundle.lookup "ids" = some (FeatVal.idx2 idsAll) ∧
      decode [b] (.batched deltasAll) none = .ok dec ∧
      ∀ n p, n < xb.length → p < b.length →
        (dec.getD n []).getD p [] =
          (xb.getD n []).getD ((idsAll.getD n []).getD p 0) [] := by
  refine ⟨[("deltas", FeatVal.arr3 (deltasAllOf b xb)),
           ("ids", FeatVal.idx2 (idsAllOf b xb))],
    deltasAllOf b xb, idsAllOf b xb,
    (deltasAllOf b xb).map (fun c =>
      List.zipWith (fun bp dp => List.zipWith (fun a b => a + b) bp dp) b c),
    ?_, rfl, rfl, rfl, ?_⟩
  · rw [enc_points_eq_build b xb _ _ hb hx]
    rfl
  · intro n p hn hp
    have hX0mem : xb.getD n [] ∈ xb := by
      rw [List.getD_eq_getElem xb [] hn]
      exact List.getElem_mem hn
    have hdecform : (deltasAllOf b xb).map (fun c =>
        List.zipWith (fun bp dp => List.zipWith (fun a b => a + b) bp dp) b c) =
        (List.range xb.length).map (fun fid =>
          List.zipWith (fun bp dp => List.zipWith (fun a b => a + b) bp dp) b
            (deltasRow b (xb.getD fid []))) := by
      rw [deltasAllOf, List.map_map]
      rfl
    rw [hdecform, map_range_getD _ _ _ _ hn]
    rw [idsAllOf, map_range_getD _ _ _ _ hn]
    have hplen : p < (List.zipWith (fun bp dp => List.zipWith
        (fun a b => a + b) bp dp) b (deltasRow b (xb.getD n []))).length := by
      rw [List.length_zipWith, deltasRow_length]
      omega
    rw [List.getD_eq_getElem _ [] hplen, List.getElem_zipWith]
    have hidlen : p < (idsRow b (xb.getD n [])).length := by
      simp [idsRow]; omega
    rw [List.getD_eq_getElem _ 0 hidlen]
    simp only [deltasRow, idsRow, List.getElem_zipWith, List.getElem_map]
    set X0 := xb.getD n [] with hX0
    set i := nnIdx X0 b[p] with hi
    apply zipWith_add_sub
    have hbpD : (b[p]).length = D := hbD _ (List.getElem_mem hp)
    by_cases hiX : i < X0.length
    · rw [List.getD_eq_getElem _ [] hiX]
      have : (X0[i]).length = D := hxD _ hX0mem _ (List.getElem_mem hiX)
      omega
    · rw [List.getD_eq_default _ [] (le_of_not_lt hiX)]
      simp

/-- Witness for C1: the round-trip theorem applied to a concrete basis
`[[0,0]]` and batch `[[[1,2],[5,5]]]` of planar points. -/
theorem enc_points_decode_roundtrip_witness :
    (([[0, 0]] : Cloud) ≠ [] ∧ (∀ p ∈ ([[0, 0]] : Cloud), p.length = 2) ∧
      (∀ c ∈ ([[[1, 2], [5, 5]]] : List Cloud), c ≠ []) ∧
      (∀ c ∈ ([[[1, 2], [5, 5]]] : List Cloud), ∀ q ∈ c, q.length = 2)) ∧
    (∃ bundle deltasAll idsAll dec,
      enc_points [[[0, 0]]] (.batched [[[1, 2], [5, 5]]]) ["deltas"] none none =
        .ok bundle ∧
      bundle.lookup "deltas" = some (FeatVal.arr3 deltasAll) ∧
      bundle.lookup "ids" = some (FeatVal.idx2 idsAll) ∧
      decode [[[0, 0]]] (.batched deltasAll) none = .ok dec ∧
      ∀ n p, n < ([[[1, 2], [5, 5]]] : List Cloud).length →
        p < ([[0, 0]] : Cloud).length →
        (dec.getD n []).getD p [] =
          (([[[1, 2], [5, 5]]] : List Cloud).getD n []).getD
            ((idsAll.getD n []).getD p 0) []) :=
  ⟨⟨by decide, by decide, by decide, by decide⟩,
    enc_points_decode_roundtrip [[0, 0]] [[[1, 2], [5, 5]]] 2
      (by decide) (by decide) (by decide) (by decide)⟩

/-- C9: a single unbatched `[P_x, D]` cloud passed to `enc_points` or
`decode` is promoted to a batch of size 1 and produces results identical to
passing the same data as `[1, P_x, D]`. -/
theorem unbatched_promotion (bps : List Cloud) (c : Cloud) (ft : List String)
    (xf : Option (List Cloud)) (cb : Option (List Cloud)) :
    enc_points bps (.unbatched c) ft xf cb = enc_points bps (.batched [c]) ft xf cb ∧
    decode bps (.unbatched c) cb = decode bps (.batched [c]) cb :=
  ⟨rfl, rfl⟩

/-- C6: for every `enc_mesh` call the returned bundle contains exactly the
`dists` key, whatever was requested; an unsupported feature name only
triggers the printed warning (the Boolean flag), never an error — the
function is total. -/
theorem enc_mesh_dists_only (bps meshes : List Cloud) (ft : List String)
    (cb : Option (List Cloud)) :
    ((enc_mesh bps meshes ft cb).1.map Prod.fst = ["dists"]) ∧
    ((enc_mesh bps meshes ft cb).2 = true ↔ "dists" ∉ ft) := by
  refine ⟨rfl, ?_⟩
  show (!(ft.contains "dists")) = true ↔ "dists" ∉ ft
  simp [List.elem_iff]

lemma enc_item_batch_mismatch (bps : List Cloud) (N : ℕ) (xb : List Cloud)
    (fid : ℕ) (h1 : bps.length ≠ 1) (hN : bps.length ≠ N) :
    enc_item bps N xb fid =
      .error (BpsErr.oracle "chamfer distance batch or shape mismatch") := by
  have hY : (if bps.length = N then [bps.getD fid []] else bps) = bps := if_neg hN
  have hcond : ¬(bps.length = ([xb.getD fid []] : List Cloud).length
      ∧ (∀ c ∈ ([xb.getD fid []] : List Cloud), c ≠ [])
      ∧ (∀ c ∈ bps, c ≠ [])) := fun hc => h1 (by simpa using hc.1)
  simp only [enc_item, hY, chdOracle, if_neg hcond]

lemma exceptMap_cons_error {α β ε : Type} (f : α → Except ε β) (a : α)
    (l : List α) (e : ε) (h : f a = .error e) :
    exceptMap f (a :: l) = .error e := by
  simp only [exceptMap, h]

/-- C3 amended: a resolved basis whose batch size is neither `N` nor 1 is
not detected by `enc_points` itself; the mismatched basis is handed to the
nearest-neighbor oracle, so the call fails with an oracle error, not with a
configuration error. -/
theorem basis_batch_mismatch_oracle_error (bps : List Cloud)
    (cb : Option (List Cloud)) (xb : List Cloud) (ft : List String)
    (xf : Option (List Cloud)) (h1 : (cb.getD bps).length ≠ 1)
    (hN : (cb.getD bps).length ≠ xb.length) (hxb : xb ≠ []) :
    ∃ m, enc_points bps (.batched xb) ft xf cb = .error (BpsErr.oracle m) := by
  refine ⟨"chamfer distance batch or shape mismatch", ?_⟩
  obtain ⟨c, cs, rfl⟩ : ∃ c cs, xb = c :: cs := by
    cases xb with
    | nil => exact absurd rfl hxb
    | cons c cs => exact ⟨c, cs, rfl⟩
  simp only [enc_points, promote]
  have hr : List.range (c :: cs).length = 0 :: (List.range cs.length).map Nat.succ := by
    rw [List.length_cons, List.range_succ_eq_map]
  rw [hr, exceptMap_cons_error _ _ _ _
    (enc_item_batch_mismatch _ _ _ _ h1 hN)]

/-- C3 counterexample: with input batch `N = 1` and a resolved (custom)
basis of batch size 2 — neither `N` nor 1 — `enc_points` does not fail with
a configuration error as the claim states: the mismatch reaches the
nearest-neighbor oracle and surfaces as an oracle failure. -/
theorem basis_batch_mismatch_counterexample :
    (∃ m, enc_points [[[0, 0]]] (.batched [[[1, 1]]]) ["dists"] none
        (some [[[0, 0]], [[2, 2]]]) = .error (BpsErr.oracle m)) ∧
    ¬ ∃ m, enc_points [[[0, 0]]] (.batched [[[1, 1]]]) ["dists"] none
        (some [[[0, 0]], [[2, 2]]]) = .error (BpsErr.config m) := by
  constructor
  · exact ⟨"chamfer distance batch or shape mismatch", by decide⟩
  · rintro ⟨m, h⟩
    rw [show enc_points [[[0, 0]]] (.batched [[[1, 1]]]) ["dists"] none
        (some [[[0, 0]], [[2, 2]]]) =
      .error (BpsErr.oracle "chamfer distance batch or shape mismatch")
      from by decide] at h
    simp at h

/-- Witness for the amended C3: a concrete basis of batch size 2 against an
input batch of size 1. -/
theorem basis_batch_mismatch_witness :
    (((some [[[0, 0]], [[2, 2]]] : Option (List Cloud)).getD [[[9, 9]]]).length ≠ 1 ∧
      ((some [[[0, 0]], [[2, 2]]] : Option (List Cloud)).getD [[[9, 9]]]).length ≠
        ([[[1, 1]]] : List Cloud).length ∧
      ([[[1, 1]]] : List Cloud) ≠ []) ∧
    ∃ m, enc_points [[[9, 9]]] (.batched [[[1, 1]]]) ["dists"] none
        (some [[[0, 0]], [[2, 2]]]) = .error (BpsErr.oracle m) :=
  ⟨⟨by decide, by decide, by decide⟩,
    basis_batch_mismatch_oracle_error [[[9, 9]]] (some [[[0, 0]], [[2, 2]]])
      [[[1, 1]]] ["dists"] none (by decide) (by decide) (by decide)⟩

lemma buildBundle_features_error (xb : List Cloud) (ft : List String)
    (xf : Option (List Cloud)) (idsAll : List (List ℕ)) (deltasAll : List Cloud)
    (e : BpsErr) (h : featuresPart xb ft xf idsAll (dimOf xb) = .error e) :
    buildBundle xb ft xf idsAll deltasAll = .error e := by
  simp only [buildBundle, h]

/-- C5: requesting `features` while `x_features` is absent makes
`enc_points` fail with the dedicated configuration error (a `BpsErr.config`,
distinguishable by constructor from every `BpsErr.oracle` failure); and an
internal failure inside the gather (an `x_features` whose last dimension
exceeds that of `x`, which makes `torch.gather` throw) surfaces as the very
same configuration error instead of propagating unchanged. -/
theorem features_without_x_features_config_error (b : Cloud) (xb : List Cloud)
    (ft : List String) (xf : Option (List Cloud))
    (hb : b ≠ []) (hx : ∀ c ∈ xb, c ≠ []) (hft : "features" ∈ ft)
    (hbad : xf = none ∨ ∃ v, xf = some v ∧ dimOf xb < dimOf v) :
    enc_points [b] (.batched xb) ft xf none =
      .error (BpsErr.config "No x_features parameter is provided") := by
  rw [enc_points_eq_build b xb ft xf hb hx]
  apply buildBundle_features_error
  rcases hbad with rfl | ⟨v, rfl, hv⟩
  · simp only [featuresPart, if_pos hft]
  · simp only [featuresPart, if_pos hft]
    rw [if_neg (by omega)]

/-- Witness for C5: requesting `features` with `x_features = none` on a
concrete input. -/
theorem features_without_x_features_witness :
    (([[0, 0]] : Cloud) ≠ [] ∧ (∀ c ∈ ([[[1, 1]]] : List Cloud), c ≠ []) ∧
      "features" ∈ ["features"] ∧
      ((none : Option (List Cloud)) = none ∨
        ∃ v, (none : Option (List Cloud)) = some v ∧
          dimOf [[[1, 1]]] < dimOf v)) ∧
    enc_points [[[0, 0]]] (.batched [[[1, 1]]]) ["features"] none none =
      .error (BpsErr.config "No x_features parameter is provided") :=
  ⟨⟨by decide, by decide, by decide, Or.inl rfl⟩,
    features_without_x_features_config_error [[0, 0]] [[[1, 1]]] ["features"]
      none (by decide) (by decide) (by decide) (Or.inl rfl)⟩

/-- C10: a `feature_type` containing none of `dists`, `deltas`, `closest`,
`features` — in particular `[]` or the sole entry `ids` — makes `enc_points`
raise the invalid-cell-type configuration error before returning, even
though `ids` is added unconditionally to every bundle that is returned. -/
theorem no_recognized_feature_config_error (b : Cloud) (xb : List Cloud)
    (ft : List String) (xf : Option (List Cloud))
    (hb : b ≠ []) (hx : ∀ c ∈ xb, c ≠ [])
    (h1 : "dists" ∉ ft) (h2 : "deltas" ∉ ft) (h3 : "closest" ∉ ft)
    (h4 : "features" ∉ ft) :
    enc_points [b] (.batched xb) ft xf none =
      .error (BpsErr.config "Invalid cell type") := by
  rw [enc_points_eq_build b xb ft xf hb hx]
  simp only [buildBundle, featuresPart, if_neg h1, if_neg h2, if_neg h3,
    if_neg h4, List.nil_append, List.length_nil]
  rfl

/-- Witness for C10: `feature_type = [ids]` on a concrete input. -/
theorem no_recognized_feature_witness :
    (([[0, 0]] : Cloud) ≠ [] ∧ (∀ c ∈ ([[[1, 1]]] : List Cloud), c ≠ []) ∧
      "dists" ∉ ["ids"] ∧ "deltas" ∉ ["ids"] ∧ "closest" ∉ ["ids"] ∧
      "features" ∉ ["ids"]) ∧
    enc_points [[[0, 0]]] (.batched [[[1, 1]]]) ["ids"] none none =
      .error (BpsErr.config "Invalid cell type") :=
  ⟨⟨by decide, by decide, by decide, by decide, by decide, by decide⟩,
    no_recognized_feature_config_error [[0, 0]] [[[1, 1]]] ["ids"] none
      (by decide) (by decide) (by decide) (by decide) (by decide) (by decide)⟩

lemma buildBundle_keys (xb : List Cloud) (ft : List String)
    (xf : Option (List Cloud)) (idsAll : List (List ℕ)) (deltasAll : List Cloud)
    (bundle : Bundle) (h : buildBundle xb ft xf idsAll deltasAll = .ok bundle) :
    bundle.map Prod.fst =
      (if "dists" ∈ ft then ["dists"] else []) ++
      (if "deltas" ∈ ft then ["deltas"] else []) ++
      (if "closest" ∈ ft then ["closest", "closest_ids"] else []) ++
      (if "features" ∈ ft then ["features"] else []) ++ ["ids"] := by
  cases xf with
  | none =>
    by_cases h4 : "features" ∈ ft
    · exfalso
      simp [buildBundle, featuresPart, h4] at h
    · by_cases h1 : "dists" ∈ ft <;> by_cases h2 : "deltas" ∈ ft <;>
        by_cases h3 : "closest" ∈ ft <;>
        simp_all [buildBundle, featuresPart] <;> (rw [← h]; rfl)
  | some v =>
    by_cases h4 : "features" ∈ ft
    · by_cases h5 : dimOf v ≤ dimOf xb
      · by_cases h1 : "dists" ∈ ft <;> by_cases h2 : "deltas" ∈ ft <;>
          by_cases h3 : "closest" ∈ ft <;>
          simp_all [buildBundle, featuresPart] <;> (rw [← h]; rfl)
      · exfalso
        simp [buildBundle, featuresPart, h4, h5] at h
    · by_cases h1 : "dists" ∈ ft <;> by_cases h2 : "deltas" ∈ ft <;>
        by_cases h3 : "closest" ∈ ft <;>
        simp_all [buildBundle, featuresPart] <;> (rw [← h]; rfl)

/-- C4 amended: for every successful `enc_points` call the bundle contains
`ids`; `dists`, `deltas`, `closest` and `features` are present iff
explicitly requested, but `closest_ids` is present iff `closest` was
requested (not iff `closest_ids` itself was); and the mesh path returns a
bundle whose only key is `dists` — in particular without `ids`. -/
theorem bundle_keys_amended (bps : List Cloud) (x : PcInput) (ft : List String)
    (xf : Option (List Cloud)) (cb : Option (List Cloud)) (bundle : Bundle)
    (bpsM meshes : List Cloud) (ftM : List String) (cbM : Option (List Cloud))
    (h : enc_points bps x ft xf cb = .ok bundle) :
    ("ids" ∈ bundle.map Prod.fst ∧
     ("dists" ∈ bundle.map Prod.fst ↔ "dists" ∈ ft) ∧
     ("deltas" ∈ bundle.map Prod.fst ↔ "deltas" ∈ ft) ∧
     ("closest" ∈ bundle.map Prod.fst ↔ "closest" ∈ ft) ∧
     ("closest_ids" ∈ bundle.map Prod.fst ↔ "closest" ∈ ft) ∧
     ("features" ∈ bundle.map Prod.fst ↔ "features" ∈ ft)) ∧
    (enc_mesh bpsM meshes ftM cbM).1.map Prod.fst = ["dists"] := by
  refine ⟨?_, rfl⟩
  simp only [enc_points] at h
  rcases hsplit : exceptMap (enc_item (cb.getD bps) (promote x).length
      (promote x)) (List.range (promote x).length) with e | rows
  · rw [hsplit] at h
    simp at h
  · rw [hsplit] at h
    have hk := buildBundle_keys _ _ _ _ _ _ h
    rw [hk]
    refine ⟨?_, ?_, ?_, ?_, ?_, ?_⟩ <;>
      by_cases h1 : "dists" ∈ ft <;> by_cases h2 : "deltas" ∈ ft <;>
      by_cases h3 : "closest" ∈ ft <;> by_cases h4 : "features" ∈ ft <;>
      simp [h1, h2, h3, h4]

/-- C4 counterexample: requesting only `closest` returns a bundle that also
contains the never-requested key `closest_ids`, so a recognized key can be
present without having been explicitly requested (and the mesh path returns
no `ids` at all, see the amended theorem). -/
theorem bundle_keys_counterexample :
    enc_points [[[0, 0]]] (.batched [[[1, 1]]]) ["closest"] none none =
      .ok [("closest", FeatVal.arr3 [[[1, 1]]]),
           ("closest_ids", FeatVal.idx3 [[[0, 0]]]),
           ("ids", FeatVal.idx2 [[0]])] ∧
    "closest_ids" ∈ ([("closest", FeatVal.arr3 [[[1, 1]]]),
           ("closest_ids", FeatVal.idx3 [[[0, 0]]]),
           ("ids", FeatVal.idx2 [[0]])] : Bundle).map Prod.fst ∧
    "closest_ids" ∉ (["closest"] : List String) := by
  refine ⟨by decide, by decide, by decide⟩

/-- Witness for the amended C4 at a concrete successful call. -/
theorem bundle_keys_witness :
    ("ids" ∈ ([("dists", FeatVal.rsqrt [[25]]), ("ids", FeatVal.idx2 [[0]])] :
        Bundle).map Prod.fst ∧
     ("dists" ∈ ([("dists", FeatVal.rsqrt [[25]]), ("ids", FeatVal.idx2 [[0]])] :
        Bundle).map Prod.fst ↔ "dists" ∈ (["dists"] : List String)) ∧
     ("deltas" ∈ ([("dists", FeatVal.rsqrt [[25]]), ("ids", FeatVal.idx2 [[0]])] :
        Bundle).map Prod.fst ↔ "deltas" ∈ (["dists"] : List String)) ∧
     ("closest" ∈ ([("dists", FeatVal.rsqrt [[25]]), ("ids", FeatVal.idx2 [[0]])] :
        Bundle).map Prod.fst ↔ "closest" ∈ (["dists"] : List String)) ∧
     ("closest_ids" ∈ ([("dists", FeatVal.rsqrt [[25]]), ("ids", FeatVal.idx2 [[0]])] :
        Bundle).map Prod.fst ↔ "closest" ∈ (["dists"] : List String)) ∧
     ("features" ∈ ([("dists", FeatVal.rsqrt [[25]]), ("ids", FeatVal.idx2 [[0]])] :
        Bundle).map Prod.fst ↔ "features" ∈ (["dists"] : List String))) ∧
    (enc_mesh [[[0, 0]]] [[[1, 1]]] ["dists"] none).1.map Prod.fst = ["dists"] :=
  bundle_keys_amended [[[0, 0]]] (.batched [[[3, 4]]]) ["dists"] none none
    [("dists", FeatVal.rsqrt [[25]]), ("ids", FeatVal.idx2 [[0]])]
    [[[0, 0]]] [[[1, 1]]] ["dists"] none (by decide)

/-- C7 amended: a supplied custom basis always takes priority and resolves
to the custom strategy (construction succeeds and stores it as `[1, P, D]`);
without a custom basis, construction succeeds exactly for the four sampling
strategy names, and fails with a configuration error for every other name —
including the recognized name `custom` itself, since `custom` without a
custom basis is rejected. -/
theorem bps_init_strategy_resolution (bt : String) (n : ℕ) (r : ℤ) (d s : ℕ)
    (rz : Bool) :
    (∀ c : Cloud, bps_init bt n r d s rz (some c) = .ok [c]) ∧
    (bt ∈ ["random_uniform", "random_nonuniform", "grid_cube", "grid_sphere"] →
      ∃ basis, bps_init bt n r d s rz none = .ok basis) ∧
    (bt ∉ ["random_uniform", "random_nonuniform", "grid_cube", "grid_sphere"] →
      ∃ m, bps_init bt n r d s rz none = .error (BpsErr.config m)) := by
  refine ⟨fun c => rfl, ?_, ?_⟩
  · intro hmem
    fin_cases hmem
    · exact ⟨_, rfl⟩
    · exact ⟨_, rfl⟩
    · exact ⟨_, rfl⟩
    · exact ⟨_, rfl⟩
  · intro hmem
    have h1 : bt ≠ "random_uniform" := by intro hh; exact hmem (by simp [hh])
    have h2 : bt ≠ "random_nonuniform" := by intro hh; exact hmem (by simp [hh])
    have h3 : bt ≠ "grid_cube" := by intro hh; exact hmem (by simp [hh])
    have h4 : bt ≠ "grid_sphere" := by intro hh; exact hmem (by simp [hh])
    by_cases h5 : bt = "custom"
    · subst h5
      exact ⟨_, rfl⟩
    · refine ⟨"Invalid basis type", ?_⟩
      show bps_dispatch bt n r d s rz none = _
      simp only [bps_dispatch, if_neg h1, if_neg h2, if_neg h3, if_neg h4,
        if_neg h5]

/-- C7 counterexample: `bps_type = custom` is one of the five recognized
strategy names, yet construction with it and no custom basis fails — so
construction failure is not equivalent to the name being unrecognized. -/
theorem bps_init_custom_without_basis_counterexample :
    (∃ m, bps_init "custom" 1024 1 3 13 false none = .error (BpsErr.config m)) ∧
    "custom" ∈ ["random_uniform", "random_nonuniform", "grid_cube",
      "grid_sphere", "custom"] :=
  ⟨⟨"Custom BPS arrangement selected but no custom_basis provided", rfl⟩,
    by decide⟩

/-- Witness for the amended C7: custom-basis priority on an unrecognized
name, failure on that name without a basis, success for `grid_sphere`. -/
theorem bps_init_strategy_resolution_witness :
    bps_init "foo" 8 1 3 13 false (some [[1, 1, 1]]) = .ok [[[1, 1, 1]]] ∧
    (∃ m, bps_init "foo" 8 1 3 13 false none = .error (BpsErr.config m)) ∧
    (∃ basis, bps_init "grid_sphere" 8 1 3 13 false none = .ok basis) :=
  ⟨(bps_init_strategy_resolution "foo" 8 1 3 13 false).1 [[1, 1, 1]],
   (bps_init_strategy_resolution "foo" 8 1 3 13 false).2.2 (by decide),
   (bps_init_strategy_resolution "grid_sphere" 8 1 3 13 false).2.1 (by decide)⟩

/-- C2: evaluation of the failing input for the `features` claim.  The code
computes `F` from `x_features` but then gathers from `x` (bps.py line 141
gathers `x`, not `x_features`), so the returned `features` value equals the
matched input coordinates `[[[1, 2]]]` and not the gather of `x_features`
at the recorded nearest-neighbor indices, which would be `[[[9, 9]]]`. -/
theorem features_gathers_x_not_x_features :
    enc_points [[[0, 0]]] (.batched [[[1, 2], [5, 5]]]) ["features"]
        (some [[[9, 9], [8, 8]]]) none =
      .ok [("features", FeatVal.arr3 [[[1, 2]]]), ("ids", FeatVal.idx2 [[0]])] ∧
    gatherIdx [[[9, 9], [8, 8]]] [[0]] 2 = [[[9, 9]]] ∧
    ([[[1, 2]]] : List Cloud) ≠ [[[9, 9]]] :=
  ⟨by decide, by decide, by decide⟩

lemma gridSize_spec (n d : ℕ) (hd : 1 ≤ d) :
    (2 * gridSize n d - 1) ^ d ≤ 2 ^ d * n ∧
    2 ^ d * n < (2 * gridSize n d + 1) ^ d := by
  have hP0 : (2 * 0 - 1 : ℕ) ^ d ≤ 2 ^ d * n := by
    have he : (2 * 0 - 1 : ℕ) = 0 := rfl
    rw [he, Nat.zero_pow (by omega : 0 < d)]
    exact Nat.zero_le _
  constructor
  · exact Nat.findGreatest_spec (P := fun g => (2 * g - 1) ^ d ≤ 2 ^ d * n)
      (Nat.zero_le (n + 1)) hP0
  · rcases Nat.lt_or_ge (gridSize n d) (n + 1) with hlt | hge
    · have hng := Nat.findGreatest_is_greatest
        (P := fun g => (2 * g - 1) ^ d ≤ 2 ^ d * n) (n := n + 1)
        (Nat.lt_succ_self (gridSize n d)) (Nat.succ_le_of_lt hlt)
      simp only [] at hng
      have heq : 2 * (gridSize n d + 1) - 1 = 2 * gridSize n d + 1 := by omega
      rw [heq] at hng
      omega
    · have hG : gridSize n d = n + 1 :=
        le_antisymm (Nat.findGreatest_le _) hge
      rw [hG]
      calc 2 ^ d * n < 2 ^ d * (n + 1) :=
            mul_lt_mul_of_pos_left (Nat.lt_succ_self n)
              (Nat.pos_pow_of_pos d (by norm_num))
        _ ≤ (2 * (n + 1)) ^ d := by
            rw [mul_pow]
            exact Nat.mul_le_mul_left _ (Nat.le_self_pow (by omega) _)
        _ ≤ (2 * (n + 1) + 1) ^ d := Nat.pow_le_pow_left (by omega) d

lemma gridSize_eq_of (n d g : ℕ) (hd : 1 ≤ d)
    (hlow : (2 * g - 1) ^ d ≤ 2 ^ d * n)
    (hhigh : 2 ^ d * n < (2 * g + 1) ^ d) : gridSize n d = g := by
  obtain ⟨h1, h2⟩ := gridSize_spec n d hd
  rcases Nat.lt_trichotomy (gridSize n d) g with h | h | h
  · exfalso
    have hle : 2 * gridSize n d + 1 ≤ 2 * g - 1 := by omega
    have := Nat.pow_le_pow_left hle d
    omega
  · exact h
  · exfalso
    have hle : 2 * g + 1 ≤ 2 * gridSize n d - 1 := by omega
    have := Nat.pow_le_pow_left hle d
    omega

lemma sample_grid_cube_length (g d : ℕ) (minv maxv : ℤ) :
    (sample_grid_cube g d minv maxv).length = g ^ d := by
  simp [sample_grid_cube]

lemma pow_root_le (d : ℕ) (hd : 1 ≤ d) {a b : ℝ} (ha : 0 ≤ a) (hb : 0 ≤ b)
    (h : a ^ d ≤ b) : a ≤ b ^ ((d : ℝ)⁻¹) := by
  have hd0 : (d : ℝ) ≠ 0 := Nat.cast_ne_zero.mpr (by omega)
  have key : ((a ^ d : ℝ)) ^ ((d : ℝ)⁻¹) ≤ b ^ ((d : ℝ)⁻¹) :=
    Real.rpow_le_rpow (by positivity) h (by positivity)
  calc a = ((a ^ d : ℝ)) ^ ((d : ℝ)⁻¹) := by
        rw [← Real.rpow_natCast a d, ← Real.rpow_mul ha, mul_inv_cancel₀ hd0,
          Real.rpow_one]
    _ ≤ b ^ ((d : ℝ)⁻¹) := key

lemma root_lt_of_lt_pow (d : ℕ) (hd : 1 ≤ d) {a b : ℝ} (ha : 0 ≤ a)
    (hb : 0 ≤ b) (h : a < b ^ d) : a ^ ((d : ℝ)⁻¹) < b := by
  have hd0 : (d : ℝ) ≠ 0 := Nat.cast_ne_zero.mpr (by omega)
  have hdposℝ : (0 : ℝ) < (d : ℝ) := by
    exact_mod_cast Nat.lt_of_lt_of_le Nat.zero_lt_one hd
  have key : a ^ ((d : ℝ)⁻¹) < ((b ^ d : ℝ)) ^ ((d : ℝ)⁻¹) :=
    Real.rpow_lt_rpow ha h (inv_pos.mpr hdposℝ)
  calc a ^ ((d : ℝ)⁻¹) < ((b ^ d : ℝ)) ^ ((d : ℝ)⁻¹) := key
    _ = b := by
        rw [← Real.rpow_natCast b d, ← Real.rpow_mul hb, mul_inv_cancel₀ hd0,
          Real.rpow_one]

lemma gridSize_eq_round (n d : ℕ) (hd : 1 ≤ d) :
    (gridSize n d : ℤ) = round ((n : ℝ) ^ ((d : ℝ)⁻¹)) := by
  obtain ⟨h1, h2⟩ := gridSize_spec n d hd
  set G := gridSize n d with hG
  have hx0 : (0 : ℝ) ≤ (n : ℝ) ^ ((d : ℝ)⁻¹) := Real.rpow_nonneg (by positivity) _
  symm
  rw [round_eq, Int.floor_eq_iff]
  constructor
  · rcases Nat.eq_zero_or_pos G with h0 | hpos
    · rw [h0]
      push_cast
      linarith
    · have h2G : 1 ≤ 2 * G := by omega
      have hkey : ((G : ℝ) - 1 / 2) ^ d ≤ (n : ℝ) := by
        have hh : ((2 * G - 1 : ℕ) : ℝ) ^ d ≤ (2 : ℝ) ^ d * (n : ℝ) := by
          exact_mod_cast h1
        rw [Nat.cast_sub h2G] at hh
        push_cast at hh
        have heq : ((G : ℝ) - 1 / 2) = (2 * (G : ℝ) - 1) / 2 := by ring
        rw [heq, div_pow, div_le_iff (by positivity)]
        calc (2 * (G : ℝ) - 1) ^ d ≤ (2 : ℝ) ^ d * (n : ℝ) := hh
          _ = (n : ℝ) * 2 ^ d := by ring
      have hle : (G : ℝ) - 1 / 2 ≤ (n : ℝ) ^ ((d : ℝ)⁻¹) := by
        apply pow_root_le d hd ?_ (by positivity) hkey
        have hone : (1 : ℝ) ≤ (G : ℝ) := by exact_mod_cast hpos
        linarith
      push_cast
      linarith
  · have hkey : (n : ℝ) < ((G : ℝ) + 1 / 2) ^ d := by
      have hh : (2 : ℝ) ^ d * (n : ℝ) < ((2 * G + 1 : ℕ) : ℝ) ^ d := by
        exact_mod_cast h2
      push_cast at hh
      have heq : ((G : ℝ) + 1 / 2) = (2 * (G : ℝ) + 1) / 2 := by ring
      rw [heq, div_pow, lt_div_iff (by positivity)]
      calc (n : ℝ) * 2 ^ d = 2 ^ d * (n : ℝ) := by ring
        _ < (2 * (G : ℝ) + 1) ^ d := hh
    have hlt : (n : ℝ) ^ ((d : ℝ)⁻¹) < (G : ℝ) + 1 / 2 :=
      root_lt_of_lt_pow d hd (by positivity) (by positivity) hkey
    push_cast
    linarith

/-- C8: `grid_cube` construction computes the grid size as the integer
nearest to the real d-th root of the requested count — stated exactly in
the integers and via `round(n ^ (1/d))` — and realizes exactly
`grid_size ^ n_dims` basis points, which may differ from the requested
`n_bps_points`. -/
theorem grid_cube_realized_count (n : ℕ) (r : ℤ) (s d : ℕ) (hd : 1 ≤ d) :
    bps_init "grid_cube" n r d s false none =
      .ok [sample_grid_cube (gridSize n d) d (-r) r] ∧
    (sample_grid_cube (gridSize n d) d (-r) r).length = gridSize n d ^ d ∧
    (2 * gridSize n d - 1) ^ d ≤ 2 ^ d * n ∧
    2 ^ d * n < (2 * gridSize n d + 1) ^ d ∧
    (gridSize n d : ℤ) = round ((n : ℝ) ^ ((d : ℝ)⁻¹)) :=
  ⟨rfl, sample_grid_cube_length _ _ _ _, (gridSize_spec n d hd).1,
   (gridSize_spec n d hd).2, gridSize_eq_round n d hd⟩

/-- Witness for C8 at the spec example: requesting 1000 points in 2
dimensions yields grid size 32, hence 1024 realized points, while in 3
dimensions the cube is exact: grid size 10, 1000 points. -/
theorem grid_cube_realized_count_witness :
    (1 ≤ 2 ∧
      bps_init "grid_cube" 1000 1 2 13 false none =
        .ok [sample_grid_cube (gridSize 1000 2) 2 (-1) 1] ∧
      (sample_grid_cube (gridSize 1000 2) 2 (-1) 1).length =
        gridSize 1000 2 ^ 2) ∧
    gridSize 1000 2 = 32 ∧ gridSize 1000 2 ^ 2 = 1024 ∧
    gridSize 1000 3 = 10 ∧ gridSize 1000 3 ^ 3 = 1000 := by
  have h32 : gridSize 1000 2 = 32 :=
    gridSize_eq_of 1000 2 32 (by omega) (by norm_num) (by norm_num)
  have h10 : gridSize 1000 3 = 10 :=
    gridSize_eq_of 1000 3 10 (by omega) (by norm_num) (by norm_num)
  refine ⟨⟨by omega, (grid_cube_realized_count 1000 1 13 2 (by omega)).1,
    (grid_cube_realized_count 1000 1 13 2 (by omega)).2.1⟩, h32, ?_, h10, ?_⟩
  · rw [h32]
    norm_num
  · rw [h10]
    norm_num
